import Mathlib

/-!
Verification of the password-reset token subsystem.

Shallow embedding of:
  * the reset-token ledger operations (async storage-backed module and
    sync file-backed module, `src/lib/passwordResetUtils.ts` in its two
    variants) — file persistence is made explicit: each operation takes
    the loaded ledger contents and returns the resulting contents plus
    whether a write occurred;
  * the JWT envelope (`createResetJWT` / `verifyResetJWT`) — `jwt.sign` /
    `jwt.verify` are modelled with an explicit signature tag and an
    absolute expiry instant; a tampered or malformed envelope is one
    whose `sig` differs from the server secret;
  * the two route handlers (`forgot-password` and `reset-password`
    POST), with `Date.now()` passed explicitly, the request body as
    `Option`s, and `bcrypt.hash` (salted, nondeterministic) as a
    function parameter.

All times are absolute instants in milliseconds (`Nat`).
-/

/-- A record of the reset-token ledger (`interface ResetToken`). -/
structure ResetToken where
  email : String
  token : String
  expiresAt : Nat
  used : Bool
deriving DecidableEq

/-- A record of the user credential store (`users.json`). -/
structure User where
  id : String
  name : String
  email : String
  password : String
deriving DecidableEq

/-- `TOKEN_EXPIRY_HOURS * 60 * 60 * 1000` — one hour in milliseconds. -/
def TOKEN_EXPIRY_MS : Nat := 1 * 60 * 60 * 1000

/-- The server JWT secret (default value of the `JWT_SECRET` binding). -/
def JWT_SECRET : String := "your-secret-key-change-in-production"

/-- The signed reset envelope: payload `{email, resetToken, type}` plus
the absolute expiry instant `exp` from `expiresIn` and the secret the
token was signed with.  A malformed or tampered envelope is modelled by
`sig ≠ JWT_SECRET`. -/
structure SignedJWT where
  email : String
  resetToken : String
  typ : String
  exp : Nat
  sig : String
deriving DecidableEq

/-- `createResetJWT`: sign `{email, resetToken, type: 'password-reset'}`
with expiry one hour from `now`. -/
def createResetJWT (now : Nat) (email resetToken : String) : SignedJWT :=
  { email := email, resetToken := resetToken, typ := "password-reset",
    exp := now + TOKEN_EXPIRY_MS, sig := JWT_SECRET }

/-- `verifyResetJWT`: `jwt.verify` succeeds iff the signature matches the
server secret and the envelope is unexpired; then the payload `type`
must equal `'password-reset'`; any failure yields `none` (`null`). -/
def verifyResetJWT (now : Nat) (t : SignedJWT) : Option (String × String) :=
  if t.sig == JWT_SECRET && decide (now < t.exp) then
    if t.typ != "password-reset" then none
    else some (t.email, t.resetToken)
  else none

/-- ASCII lower-casing of one character (the fragment of
`String.prototype.toLowerCase` relevant to email comparison). -/
def lowerChar (c : Char) : Char :=
  if 65 ≤ c.toNat ∧ c.toNat ≤ 90 then Char.ofNat (c.toNat + 32) else c

/-- `toLowerCase()` on a string, character by character. -/
def lowerStr (s : String) : String :=
  ⟨s.data.map lowerChar⟩

/-- Result of `validateResetToken`: the boolean answer, the resulting
persistent ledger contents, and whether a save was performed. -/
structure ValidateResult where
  ok : Bool
  ledger : List ResetToken
  persisted : Bool
deriving DecidableEq

/-- Resulting ledger contents of a mutating ledger operation plus
whether a save was performed. -/
structure LedgerWrite where
  ledger : List ResetToken
  persisted : Bool
deriving DecidableEq

namespace Async

/-- Async `storeResetToken`: drop any records for `email`, append the
fresh record with a one-hour expiry, save. -/
def storeResetToken (now : Nat) (email resetToken : String)
    (ledger : List ResetToken) : List ResetToken :=
  (ledger.filter (fun t => t.email != email)) ++
    [{ email := email, token := resetToken,
       expiresAt := now + TOKEN_EXPIRY_MS, used := false }]

/-- Async `validateResetToken`: filter out expired-or-used records, save
the filtered ledger when anything was dropped, and answer whether an
unused record matching `(email, resetToken)` remains. -/
def validateResetToken (now : Nat) (email resetToken : String)
    (ledger : List ResetToken) : ValidateResult :=
  let validTokens := ledger.filter (fun t => decide (now < t.expiresAt) && !t.used)
  let persisted := validTokens.length != ledger.length
  { ok := (validTokens.find? (fun t =>
      t.email == email && t.token == resetToken && !t.used)).isSome,
    ledger := if persisted then validTokens else ledger,
    persisted := persisted }

/-- Async `markTokenAsUsed`: find the first record matching
`(email, resetToken)` — regardless of its `used`/expiry state — set its
`used` flag and save; if none matches, do nothing. -/
def markTokenAsUsed (email resetToken : String)
    (ledger : List ResetToken) : LedgerWrite :=
  match ledger.findIdx? (fun t => t.email == email && t.token == resetToken) with
  | some i =>
    { ledger := ledger.modify (fun t => { t with used := true }) i, persisted := true }
  | none => { ledger := ledger, persisted := false }

/-- Async `cleanupExpiredTokens`: keep the records that are unexpired
and unused; save only when anything was dropped. -/
def cleanupExpiredTokens (now : Nat) (ledger : List ResetToken) : LedgerWrite :=
  let validTokens := ledger.filter (fun t => decide (now < t.expiresAt) && !t.used)
  if validTokens.length != ledger.length then
    { ledger := validTokens, persisted := true }
  else
    { ledger := ledger, persisted := false }

end Async

namespace Sync

/-- Sync (file-backed) `storeResetToken`; same record logic as the async
variant, persistence via `fs.writeFileSync`. -/
def storeResetToken (now : Nat) (email resetToken : String)
    (ledger : List ResetToken) : List ResetToken :=
  (ledger.filter (fun t => t.email != email)) ++
    [{ email := email, token := resetToken,
       expiresAt := now + TOKEN_EXPIRY_MS, used := false }]

/-- Sync (file-backed) `validateResetToken`. -/
def validateResetToken (now : Nat) (email resetToken : String)
    (ledger : List ResetToken) : ValidateResult :=
  let validTokens := ledger.filter (fun t => decide (now < t.expiresAt) && !t.used)
  let persisted := validTokens.length != ledger.length
  { ok := (validTokens.find? (fun t =>
      t.email == email && t.token == resetToken && !t.used)).isSome,
    ledger := if persisted then validTokens else ledger,
    persisted := persisted }

/-- Sync (file-backed) `markTokenAsUsed`. -/
def markTokenAsUsed (email resetToken : String)
    (ledger : List ResetToken) : LedgerWrite :=
  match ledger.findIdx? (fun t => t.email == email && t.token == resetToken) with
  | some i =>
    { ledger := ledger.modify (fun t => { t with used := true }) i, persisted := true }
  | none => { ledger := ledger, persisted := false }

/-- Sync (file-backed) `cleanupExpiredTokens`. -/
def cleanupExpiredTokens (now : Nat) (ledger : List ResetToken) : LedgerWrite :=
  let validTokens := ledger.filter (fun t => decide (now < t.expiresAt) && !t.used)
  if validTokens.length != ledger.length then
    { ledger := validTokens, persisted := true }
  else
    { ledger := ledger, persisted := false }

end Sync

/-- An HTTP JSON response `{ message }` with its status code. -/
structure ApiResponse where
  status : Nat
  message : String
deriving DecidableEq

/-- The persistent state the reset-password handler touches: the user
store (`users.json`) and the reset-token ledger (`resetTokens.json`). -/
structure AppState where
  users : List User
  ledger : List ResetToken
deriving DecidableEq

/-- The `reset-password` POST handler.  `token?` and `password?` are the
request-body fields, `bhash` stands for `bcrypt.hash(·, 12)` (salted,
hence a parameter), `now` is `Date.now()`. -/
def performReset (now : Nat) (token? : Option SignedJWT) (password? : Option String)
    (bhash : String → String) (st : AppState) : ApiResponse × AppState :=
  match token? with
  | none => ({ status := 400, message := "Reset token is required" }, st)
  | some tok =>
    match password? with
    | none =>
      ({ status := 400, message := "Password must be at least 6 characters long" }, st)
    | some pw =>
      if pw.length < 6 then
        ({ status := 400, message := "Password must be at least 6 characters long" }, st)
      else
        match verifyResetJWT now tok with
        | none => ({ status := 400, message := "Invalid or expired reset token" }, st)
        | some (email, resetToken) =>
          let v := Sync.validateResetToken now email resetToken st.ledger
          let st1 : AppState := { st with ledger := v.ledger }
          if !v.ok then
            ({ status := 400, message := "Invalid or expired reset token" }, st1)
          else
            match st1.users.findIdx? (fun u => lowerStr u.email == lowerStr email) with
            | none => ({ status := 404, message := "User not found" }, st1)
            | some i =>
              let users1 := st1.users.modify (fun u => { u with password := bhash pw }) i
              let m := Sync.markTokenAsUsed email resetToken st1.ledger
              ({ status := 200, message := "Password has been reset successfully" },
                { users := users1, ledger := m.ledger })

/-- Outcome of the `forgot-password` POST handler: the response, the
resulting ledger contents, and whether an email send was attempted. -/
structure RequestOutcome where
  resp : ApiResponse
  ledger : List ResetToken
  emailAttempted : Bool
deriving DecidableEq

/-- The `forgot-password` POST handler.  `genToken` stands for the
random `generateResetToken()` output, `emailOk` for whether the email
capability delivers without throwing. -/
def requestReset (now : Nat) (email? : Option String) (genToken : String)
    (emailOk : Bool) (users : List User) (ledger : List ResetToken) : RequestOutcome :=
  match email? with
  | none =>
    { resp := { status := 400, message := "Please provide a valid email address" },
      ledger := ledger, emailAttempted := false }
  | some email =>
    if !(email.data.contains '@') then
      { resp := { status := 400, message := "Please provide a valid email address" },
        ledger := ledger, emailAttempted := false }
    else
      match users.find? (fun u => lowerStr u.email == lowerStr email) with
      | none =>
        { resp := { status := 200, message :=
            "If an account with that email exists, a password reset link has been sent." },
          ledger := ledger, emailAttempted := false }
      | some _ =>
        let ledger1 := Sync.storeResetToken now email genToken ledger
        if emailOk then
          { resp := { status := 200, message :=
              "If an account with that email exists, a password reset link has been sent." },
            ledger := ledger1, emailAttempted := true }
        else
          { resp := { status := 500, message :=
              "Failed to send password reset email. Please try again later." },
            ledger := ledger1, emailAttempted := true }

/-- State of the raw `resetTokens.json` file as the async loader sees
it: absent (`ENOENT`), unreadable (other I/O error), unparsable
(`JSON.parse` throws), valid JSON that is not an array, or a JSON array
of records. -/
inductive RawFile where
  | missing
  | unreadable
  | malformed
  | nonArray
  | array (records : List ResetToken)
deriving DecidableEq

/-- A parsed JSON value as far as the loader inspects it: an array of
records, or anything else. -/
inductive JsonValue where
  | arr (records : List ResetToken)
  | nonArr
deriving DecidableEq

/-- `readDataFromFile` (storage module, non-serverless branch): a
missing file, a read error and a parse error all collapse to the empty
array; otherwise the parsed JSON value is returned as-is. -/
def readDataFromFile : RawFile → JsonValue
  | .missing => .arr []
  | .unreadable => .arr []
  | .malformed => .arr []
  | .nonArray => .nonArr
  | .array l => .arr l

/-- Async `loadResetTokens`: `Array.isArray(data) ? data : []`. -/
def loadResetTokens (f : RawFile) : List ResetToken :=
  match readDataFromFile f with
  | .arr l => l
  | .nonArr => []

/-- First-match-marking recursion: the semantics of `findIndex`
followed by an in-place `used = true` assignment, stated structurally
for proofs. -/
def markUsedRec (email resetToken : String) : List ResetToken → List ResetToken × Bool
  | [] => ([], false)
  | t :: ts =>
    if t.email == email && t.token == resetToken then
      ({ t with used := true } :: ts, true)
    else
      let r := markUsedRec email resetToken ts
      (t :: r.1, r.2)

/-! ### Helper lemmas about the ledger operations -/

/-- A filter that drops nothing is the identity. -/
theorem filter_eq_self_of_length {α : Type} {p : α → Bool} (l : List α)
    (h : (l.filter p).length = l.length) : l.filter p = l :=
  (List.filter_sublist l).eq_of_length h

/-- The ledger contents left behind by `validateResetToken` are exactly
the unexpired, unused records, whether or not a save happened. -/
theorem validate_ledger_eq (now : Nat) (e tok : String) (l : List ResetToken) :
    (Sync.validateResetToken now e tok l).ledger =
      l.filter (fun t => decide (now < t.expiresAt) && !t.used) := by
  simp only [Sync.validateResetToken]
  split
  · rfl
  · rename_i h
    exact (filter_eq_self_of_length l (by simpa using h)).symm

/-- `validateResetToken` answers true exactly when an unused, unexpired
record matching `(email, token)` is present. -/
theorem validate_ok_iff (now : Nat) (e tok : String) (l : List ResetToken) :
    (Sync.validateResetToken now e tok l).ok = true ↔
      ∃ t ∈ l, t.email = e ∧ t.token = tok ∧ t.used = false ∧ now < t.expiresAt := by
  simp only [Sync.validateResetToken, Option.isSome_iff_exists]
  constructor
  · rintro ⟨t, ht⟩
    have h1 := List.find?_some ht
    have h2 := List.mem_filter.mp (List.mem_of_find?_eq_some ht)
    simp only [Bool.and_eq_true, beq_iff_eq, decide_eq_true_eq,
      Bool.not_eq_true'] at h1 h2
    exact ⟨t, h2.1, h1.1.1, h1.1.2, h1.2, h2.2.1⟩
  · rintro ⟨t, htm, h1, h2, h3, h4⟩
    have hmemf : t ∈ l.filter (fun t => decide (now < t.expiresAt) && !t.used) :=
      List.mem_filter.mpr ⟨htm, by simp [h3, h4]⟩
    have : (l.filter (fun t => decide (now < t.expiresAt) && !t.used)).find?
        (fun t => t.email == e && t.token == tok && !t.used) |>.isSome := by
      rw [List.find?_isSome]
      exact ⟨t, hmemf, by simp [h1, h2, h3]⟩
    simpa [Option.isSome_iff_exists] using this

/-- Closed form of `cleanupExpiredTokens`: the kept records are the
unexpired unused ones, and a save happens exactly when the filter
dropped something. -/
theorem cleanup_eq (now : Nat) (l : List ResetToken) :
    Sync.cleanupExpiredTokens now l =
      { ledger := l.filter (fun t => decide (now < t.expiresAt) && !t.used),
        persisted :=
          (l.filter (fun t => decide (now < t.expiresAt) && !t.used)).length
            != l.length } := by
  simp only [Sync.cleanupExpiredTokens]
  split
  · rename_i h
    simp only [h]
  · rename_i h
    have hlen : (l.filter (fun t => decide (now < t.expiresAt) && !t.used)).length
        = l.length := by simpa using h
    simp only [LedgerWrite.mk.injEq]
    exact ⟨(filter_eq_self_of_length l hlen).symm, by simp [hlen]⟩

/-- `markTokenAsUsed` agrees with the structural first-match recursion. -/
theorem markUsed_eq_rec (e tok : String) (l : List ResetToken) :
    Sync.markTokenAsUsed e tok l =
      { ledger := (markUsedRec e tok l).1, persisted := (markUsedRec e tok l).2 } := by
  induction l with
  | nil => rfl
  | cons t ts ih =>
    by_cases h : (t.email == e && t.token == tok) = true
    · simp [Sync.markTokenAsUsed, markUsedRec, h]
    · cases hfi : List.findIdx? (fun x => x.email == e && x.token == tok) ts with
      | none =>
        have h2 : Sync.markTokenAsUsed e tok ts = { ledger := ts, persisted := false } := by
          simp [Sync.markTokenAsUsed, hfi]
        have h3 := ih.symm.trans h2
        rw [LedgerWrite.mk.injEq] at h3
        simp [Sync.markTokenAsUsed, markUsedRec, h, hfi, h3.1, h3.2]
      | some j =>
        have h2 : Sync.markTokenAsUsed e tok ts =
            { ledger := ts.modify (fun x => { x with used := true }) j,
              persisted := true } := by
          simp [Sync.markTokenAsUsed, hfi]
        have h3 := ih.symm.trans h2
        rw [LedgerWrite.mk.injEq] at h3
        simp [Sync.markTokenAsUsed, markUsedRec, h, hfi, h3.1, h3.2,
          List.modify_succ_cons]

/-- The first-match marking keeps every field except `used` intact,
positionally. -/
theorem markUsedRec_fields (e tok : String) (l : List ResetToken) :
    ((markUsedRec e tok l).1).map (fun t => (t.email, t.token, t.expiresAt)) =
      l.map (fun t => (t.email, t.token, t.expiresAt)) := by
  induction l with
  | nil => rfl
  | cons t ts ih =>
    by_cases h : (t.email == e && t.token == tok) = true <;>
      simp [markUsedRec, h, ih]

/-- When no record matches, the first-match marking is the identity. -/
theorem markUsedRec_no_match (e tok : String) (l : List ResetToken)
    (h : ∀ t ∈ l, ¬(t.email = e ∧ t.token = tok)) :
    markUsedRec e tok l = (l, false) := by
  induction l with
  | nil => rfl
  | cons t ts ih =>
    have ht := h t (List.mem_cons_self t ts)
    have hb : (t.email == e && t.token == tok) = false := by
      rw [Bool.eq_false_iff]
      intro hc
      exact ht (by simpa using hc)
    have ih2 := ih (fun x hx => h x (List.mem_cons_of_mem t hx))
    simp [markUsedRec, hb, ih2]

/-- When some record matches, the first-match marking reports a write
and the result holds a used record with the given email and token. -/
theorem markUsedRec_exists (e tok : String) (l : List ResetToken)
    (h : ∃ t ∈ l, t.email = e ∧ t.token = tok) :
    (∃ t ∈ (markUsedRec e tok l).1, t.email = e ∧ t.token = tok ∧ t.used = true) ∧
      (markUsedRec e tok l).2 = true := by
  induction l with
  | nil => simp at h
  | cons t ts ih =>
    by_cases hb : (t.email == e && t.token == tok) = true
    · have hc : t.email = e ∧ t.token = tok := by simpa using hb
      have hcons : markUsedRec e tok (t :: ts) = ({ t with used := true } :: ts, true) := by
        simp [markUsedRec, hb]
      rw [hcons]
      exact ⟨⟨{ t with used := true }, List.mem_cons_self _ _, hc.1, hc.2, rfl⟩, rfl⟩
    · have h' : ∃ x ∈ ts, x.email = e ∧ x.token = tok := by
        rcases h with ⟨x, hx, hxe⟩
        rcases List.mem_cons.mp hx with rfl | hx2
        · exact absurd (by simp [hxe.1, hxe.2]) hb
        · exact ⟨x, hx2, hxe⟩
      obtain ⟨⟨x, hx1, hx2⟩, h2⟩ := ih h'
      have hcons : (markUsedRec e tok (t :: ts)).1 = t :: (markUsedRec e tok ts).1 := by
        simp [markUsedRec, hb]
      have hsnd : (markUsedRec e tok (t :: ts)).2 = (markUsedRec e tok ts).2 := by
        simp [markUsedRec, hb]
      refine ⟨⟨x, ?_, hx2⟩, hsnd.trans h2⟩
      rw [hcons]
      exact List.mem_cons_of_mem t hx1

/-- On a ledger with at most one record per email, after the first-match
marking every record matching `(email, token)` is used. -/
theorem markUsedRec_all_used (e tok : String) (l : List ResetToken)
    (hd : l.Pairwise (fun a b => a.email ≠ b.email)) :
    ∀ t ∈ (markUsedRec e tok l).1, t.email = e → t.token = tok → t.used = true := by
  induction l with
  | nil => intro t ht; simp [markUsedRec] at ht
  | cons t ts ih =>
    have hhead := (List.pairwise_cons.mp hd).1
    have htail := (List.pairwise_cons.mp hd).2
    by_cases hb : (t.email == e && t.token == tok) = true
    · have hc : t.email = e ∧ t.token = tok := by simpa using hb
      have hcons : (markUsedRec e tok (t :: ts)).1 = { t with used := true } :: ts := by
        simp [markUsedRec, hb]
      rw [hcons]
      intro x hx hx1 hx2
      rcases List.mem_cons.mp hx with rfl | hx3
      · rfl
      · exact absurd (hc.1.trans hx1.symm) (hhead x hx3)
    · have hcons : (markUsedRec e tok (t :: ts)).1 = t :: (markUsedRec e tok ts).1 := by
        simp [markUsedRec, hb]
      rw [hcons]
      intro x hx hx1 hx2
      rcases List.mem_cons.mp hx with rfl | hx3
      · exact absurd (by simp [hx1, hx2]) hb
      · exact ih htail x hx3 hx1 hx2

/-! ### Claim theorems -/

/-- Claim C2 counterexample: at time 5, a used record with
`expiresAt = 10 > 5` would be retained by the claimed semantics
(remove exactly `expiresAt ≤ now`, independent of `used`), but
`cleanupExpiredTokens` removes it and persists. -/
theorem claim2_counterexample :
    (Sync.cleanupExpiredTokens 5
        [⟨"a@b.com", "t0", 10, true⟩]).ledger = []
  ∧ (Sync.cleanupExpiredTokens 5
        [⟨"a@b.com", "t0", 10, true⟩]).persisted = true
  ∧ [(⟨"a@b.com", "t0", 10, true⟩ : ResetToken)].filter
        (fun t => !decide (t.expiresAt ≤ 5)) =
      [⟨"a@b.com", "t0", 10, true⟩] :=
  ⟨rfl, rfl, rfl⟩

/-- Claim C2 (amended): `cleanupExpiredTokens` removes exactly the
records that are expired (`expiresAt ≤ now`) or already used — a used
record is removed even when unexpired — and the ledger is persisted
exactly when at least one record was removed. -/
theorem claim2_amended_cleanup (now : Nat) (l : List ResetToken) :
    (Sync.cleanupExpiredTokens now l).ledger =
      l.filter (fun t => decide (now < t.expiresAt) && !t.used)
  ∧ ((Sync.cleanupExpiredTokens now l).persisted = true ↔
      (Sync.cleanupExpiredTokens now l).ledger ≠ l) := by
  rw [cleanup_eq now l]
  refine ⟨rfl, ?_⟩
  simp only [bne_iff_ne, ne_eq]
  constructor
  · intro hne hcontra
    exact hne (by rw [hcontra])
  · intro hne hlen
    exact hne (filter_eq_self_of_length l hlen)

/-- Claim C7: `markTokenAsUsed` finds the `(email, token)` match
regardless of its `used`/expiry state and sets `used`, keeping every
other field of every record; on no match it completes with the ledger
entirely unchanged and no write. -/
theorem claim7_markUsed_total (e tok : String) (l : List ResetToken) :
    ((∀ t ∈ l, ¬(t.email = e ∧ t.token = tok)) →
      Sync.markTokenAsUsed e tok l = { ledger := l, persisted := false })
  ∧ ((∃ t ∈ l, t.email = e ∧ t.token = tok) →
      (Sync.markTokenAsUsed e tok l).persisted = true
    ∧ (∃ t ∈ (Sync.markTokenAsUsed e tok l).ledger,
         t.email = e ∧ t.token = tok ∧ t.used = true)
    ∧ (Sync.markTokenAsUsed e tok l).ledger.map
          (fun t => (t.email, t.token, t.expiresAt)) =
        l.map (fun t => (t.email, t.token, t.expiresAt))) := by
  constructor
  · intro h
    rw [markUsed_eq_rec, markUsedRec_no_match e tok l h]
  · intro h
    obtain ⟨hex, hw⟩ := markUsedRec_exists e tok l h
    refine ⟨?_, ?_, ?_⟩
    · rw [markUsed_eq_rec]; exact hw
    · rw [markUsed_eq_rec]; exact hex
    · rw [markUsed_eq_rec]; exact markUsedRec_fields e tok l

/-- Witness for C7: a concrete no-match no-op and a concrete match
that reports a write. -/
theorem claim7_markUsed_total_witness :
    Sync.markTokenAsUsed "a@b.com" "t9" [⟨"a@b.com", "t1", 10, false⟩] =
      { ledger := [⟨"a@b.com", "t1", 10, false⟩], persisted := false }
  ∧ (Sync.markTokenAsUsed "a@b.com" "t1" [⟨"a@b.com", "t1", 10, false⟩]).persisted
      = true := by
  constructor
  · exact (claim7_markUsed_total "a@b.com" "t9" _).1 (by decide)
  · exact ((claim7_markUsed_total "a@b.com" "t1"
      [⟨"a@b.com", "t1", 10, false⟩]).2
      ⟨⟨"a@b.com", "t1", 10, false⟩, by decide, rfl, rfl⟩).1

/-- Claim C8: at a fixed time, a second `cleanupExpiredTokens` run on
the result of a first removes nothing and performs no save. -/
theorem claim8_cleanup_idempotent (now : Nat) (l : List ResetToken) :
    Sync.cleanupExpiredTokens now (Sync.cleanupExpiredTokens now l).ledger =
      { ledger := (Sync.cleanupExpiredTokens now l).ledger, persisted := false } := by
  have hl : (Sync.cleanupExpiredTokens now l).ledger =
      l.filter (fun t => decide (now < t.expiresAt) && !t.used) := by
    rw [cleanup_eq]
  have hfix : ((Sync.cleanupExpiredTokens now l).ledger).filter
      (fun t => decide (now < t.expiresAt) && !t.used) =
      (Sync.cleanupExpiredTokens now l).ledger := by
    rw [hl, List.filter_filter]
    exact List.filter_congr (fun x _ => Bool.and_self _)
  rw [cleanup_eq now (Sync.cleanupExpiredTokens now l).ledger, hfix]
  simp

/-- Claim C9: on the same loaded ledger contents, the async
storage-backed and the sync file-backed variants of the four ledger
operations return the same value and leave the same contents. -/
theorem claim9_backend_equivalence (now : Nat) (e tok : String) (l : List ResetToken) :
    Async.storeResetToken now e tok l = Sync.storeResetToken now e tok l
  ∧ Async.validateResetToken now e tok l = Sync.validateResetToken now e tok l
  ∧ Async.markTokenAsUsed e tok l = Sync.markTokenAsUsed e tok l
  ∧ Async.cleanupExpiredTokens now l = Sync.cleanupExpiredTokens now l :=
  ⟨rfl, rfl, rfl, rfl⟩

/-- Claim C10: a missing, unreadable, unparsable or non-array ledger
file loads as the empty list, so validation answers false, cleanup
removes nothing and performs no save, and a store behaves as storing
into an empty ledger; no operation signals an error. -/
theorem claim10_absent_ledger (f : RawFile) (now : Nat) (e tok : String)
    (h : f = RawFile.missing ∨ f = RawFile.unreadable ∨ f = RawFile.malformed ∨
         f = RawFile.nonArray) :
    loadResetTokens f = []
  ∧ (Async.validateResetToken now e tok (loadResetTokens f)).ok = false
  ∧ Async.cleanupExpiredTokens now (loadResetTokens f) =
      { ledger := [], persisted := false }
  ∧ Async.storeResetToken now e tok (loadResetTokens f) =
      [{ email := e, token := tok, expiresAt := now + TOKEN_EXPIRY_MS, used := false }] := by
  have hload : loadResetTokens f = [] := by
    rcases h with rfl | rfl | rfl | rfl <;> rfl
  rw [hload]
  exact ⟨rfl, rfl, rfl, rfl⟩

/-- Witness for C10 at the missing-file case. -/
theorem claim10_absent_ledger_witness :
    loadResetTokens RawFile.missing = []
  ∧ (Async.validateResetToken 7 "a@b.com" "t1" (loadResetTokens RawFile.missing)).ok
      = false
  ∧ Async.cleanupExpiredTokens 7 (loadResetTokens RawFile.missing) =
      { ledger := [], persisted := false }
  ∧ Async.storeResetToken 7 "a@b.com" "t1" (loadResetTokens RawFile.missing) =
      [{ email := "a@b.com", token := "t1", expiresAt := 7 + TOKEN_EXPIRY_MS,
         used := false }] :=
  claim10_absent_ledger RawFile.missing 7 "a@b.com" "t1" (Or.inl rfl)

/-- Projection form of `markUsed_eq_rec` for the resulting contents. -/
theorem markUsed_ledger (e tok : String) (l : List ResetToken) :
    (Sync.markTokenAsUsed e tok l).ledger = (markUsedRec e tok l).1 := by
  rw [markUsed_eq_rec]

/-- The first-match marking keeps the email sequence intact. -/
theorem markUsedRec_emails (e tok : String) (l : List ResetToken) :
    ((markUsedRec e tok l).1).map (fun t => t.email) = l.map (fun t => t.email) := by
  induction l with
  | nil => rfl
  | cons t ts ih =>
    by_cases h : (t.email == e && t.token == tok) = true <;>
      simp [markUsedRec, h, ih]

/-- Claim C3: a request for an email absent from the user store gets
HTTP 200 with the very success message of the present-email path,
leaves the ledger untouched and attempts no email send. -/
theorem claim3_enumeration_resistance
    (now : Nat) (email gen : String) (emailOk : Bool)
    (users : List User) (ledger : List ResetToken)
    (hat : email.data.contains '@' = true)
    (habs : ∀ u ∈ users, lowerStr u.email ≠ lowerStr email) :
    requestReset now (some email) gen emailOk users ledger =
      { resp := { status := 200, message :=
          "If an account with that email exists, a password reset link has been sent." },
        ledger := ledger, emailAttempted := false }
  ∧ (∀ (now2 : Nat) (email2 gen2 : String) (users2 : List User)
        (ledger2 : List ResetToken),
      email2.data.contains '@' = true →
      (∃ u ∈ users2, lowerStr u.email = lowerStr email2) →
      (requestReset now2 (some email2) gen2 true users2 ledger2).resp =
        { status := 200, message :=
          "If an account with that email exists, a password reset link has been sent." }) := by
  constructor
  · have hat' : '@' ∈ email.data := by simpa using hat
    have hfind : users.find? (fun u => lowerStr u.email == lowerStr email) = none := by
      rw [List.find?_eq_none]
      intro u hu
      simp [habs u hu]
    simp [requestReset, hat', hfind]
  · rintro now2 email2 gen2 users2 ledger2 hat2 ⟨u, hu, hue⟩
    have hat2' : '@' ∈ email2.data := by simpa using hat2
    cases hfind : users2.find? (fun x => lowerStr x.email == lowerStr email2) with
    | none =>
      exfalso
      have := List.find?_eq_none.mp hfind u hu
      simp [hue] at this
    | some w => simp [requestReset, hat2', hfind]

/-- Witness for C3: absent email `nope@example.com` against a store
holding only `test@example.com`; present email with delivery success
returns the identical message. -/
theorem claim3_enumeration_resistance_witness :
    requestReset 0 (some "nope@example.com") "g1" true
      [⟨"1", "Test User", "test@example.com", "pw"⟩] [] =
      { resp := { status := 200, message :=
          "If an account with that email exists, a password reset link has been sent." },
        ledger := [], emailAttempted := false }
  ∧ (requestReset 0 (some "test@example.com") "g2" true
      [⟨"1", "Test User", "test@example.com", "pw"⟩] []).resp =
      { status := 200, message :=
        "If an account with that email exists, a password reset link has been sent." } := by
  have h := claim3_enumeration_resistance 0 "nope@example.com" "g1" true
    [⟨"1", "Test User", "test@example.com", "pw"⟩] [] (by decide) (by decide)
  exact ⟨h.1, h.2 0 "test@example.com" "g2"
    [⟨"1", "Test User", "test@example.com", "pw"⟩] [] (by decide)
    ⟨⟨"1", "Test User", "test@example.com", "pw"⟩, by decide, by decide⟩⟩

/-- Claim C6: an envelope-verification failure and a ledger-validation
failure produce the very same HTTP 400 response value. -/
theorem claim6_uniform_invalid (now : Nat) (st : AppState) (jt : SignedJWT)
    (pw : String) (bhash : String → String) (hpw : 6 ≤ pw.length) :
    (verifyResetJWT now jt = none →
      (performReset now (some jt) (some pw) bhash st).1 =
        { status := 400, message := "Invalid or expired reset token" })
  ∧ (∀ email rtok, verifyResetJWT now jt = some (email, rtok) →
      (Sync.validateResetToken now email rtok st.ledger).ok = false →
      (performReset now (some jt) (some pw) bhash st).1 =
        { status := 400, message := "Invalid or expired reset token" }) := by
  have hlt : ¬ (pw.length < 6) := by omega
  constructor
  · intro hver
    simp [performReset, hver, hlt]
  · intro email rtok hver hok
    simp [performReset, hver, hlt, hok]

/-- Witness for C6: a tampered envelope and a well-signed envelope whose
ledger record is absent yield the identical 400 body. -/
theorem claim6_uniform_invalid_witness :
    (performReset 5 (some ⟨"a@b.com", "t1", "password-reset", 100, "wrong"⟩)
        (some "secret123") id { users := [], ledger := [] }).1 =
      { status := 400, message := "Invalid or expired reset token" }
  ∧ (performReset 5 (some ⟨"a@b.com", "t1", "password-reset", 100, JWT_SECRET⟩)
        (some "secret123") id { users := [], ledger := [] }).1 =
      { status := 400, message := "Invalid or expired reset token" } := by
  constructor
  · exact (claim6_uniform_invalid 5 { users := [], ledger := [] }
      ⟨"a@b.com", "t1", "password-reset", 100, "wrong"⟩ "secret123" id
      (by decide)).1 (by decide)
  · exact (claim6_uniform_invalid 5 { users := [], ledger := [] }
      ⟨"a@b.com", "t1", "password-reset", 100, JWT_SECRET⟩ "secret123" id
      (by decide)).2 "a@b.com" "t1" (by decide) (by decide)

/-- Claim C4: both expiries are enforced independently — an elapsed
ledger TTL yields the generic 400 even under an unexpired envelope, and
an expired envelope yields the generic 400 regardless of the ledger. -/
theorem claim4_dual_expiry (now : Nat) (st : AppState) (jt : SignedJWT)
    (pw : String) (bhash : String → String)
    (hsig : jt.sig = JWT_SECRET) (htyp : jt.typ = "password-reset")
    (hpw : 6 ≤ pw.length) :
    ((now < jt.exp) →
      (∀ t ∈ st.ledger, t.email = jt.email → t.token = jt.resetToken →
        t.expiresAt ≤ now) →
      (performReset now (some jt) (some pw) bhash st).1 =
        { status := 400, message := "Invalid or expired reset token" })
  ∧ ((jt.exp ≤ now) →
      (performReset now (some jt) (some pw) bhash st).1 =
        { status := 400, message := "Invalid or expired reset token" }) := by
  have hlt : ¬ (pw.length < 6) := by omega
  constructor
  · intro hjexp hled
    have hver : verifyResetJWT now jt = some (jt.email, jt.resetToken) := by
      simp [verifyResetJWT, hsig, htyp, hjexp]
    have hok : (Sync.validateResetToken now jt.email jt.resetToken st.ledger).ok
        = false := by
      cases hv : (Sync.validateResetToken now jt.email jt.resetToken st.ledger).ok
      · rfl
      · exfalso
        obtain ⟨t, htm, h1, h2, h3, h4⟩ :=
          (validate_ok_iff now jt.email jt.resetToken st.ledger).mp hv
        exact absurd h4 (Nat.not_lt.mpr (hled t htm h1 h2))
    simp [performReset, hver, hlt, hok]
  · intro hexp
    have hnexp : ¬ (now < jt.exp) := Nat.not_lt.mpr hexp
    have hver : verifyResetJWT now jt = none := by
      simp [verifyResetJWT, hnexp]
    simp [performReset, hver, hlt]

/-- Witness for C4: ledger TTL elapsed under a live envelope, and an
expired envelope over a live ledger record. -/
theorem claim4_dual_expiry_witness :
    (performReset 50 (some ⟨"a@b.com", "t1", "password-reset", 100, JWT_SECRET⟩)
        (some "secret123") id
        { users := [], ledger := [⟨"a@b.com", "t1", 30, false⟩] }).1 =
      { status := 400, message := "Invalid or expired reset token" }
  ∧ (performReset 200 (some ⟨"a@b.com", "t1", "password-reset", 100, JWT_SECRET⟩)
        (some "secret123") id
        { users := [], ledger := [⟨"a@b.com", "t1", 300, false⟩] }).1 =
      { status := 400, message := "Invalid or expired reset token" } := by
  constructor
  · exact (claim4_dual_expiry 50
      { users := [], ledger := [⟨"a@b.com", "t1", 30, false⟩] }
      ⟨"a@b.com", "t1", "password-reset", 100, JWT_SECRET⟩ "secret123" id
      rfl rfl (by decide)).1 (by decide) (by decide)
  · exact (claim4_dual_expiry 200
      { users := [], ledger := [⟨"a@b.com", "t1", 300, false⟩] }
      ⟨"a@b.com", "t1", "password-reset", 100, JWT_SECRET⟩ "secret123" id
      rfl rfl (by decide)).2 (by decide)

/-- Claim C5: all four ledger operations preserve at-most-one-record-
per-email, and a second issuance for the same email invalidates the
first token. -/
theorem claim5_supersession
    (now nowStore nowVal : Nat) (e e2 tok tok1 tok2 : String) (l : List ResetToken)
    (hd : l.Pairwise (fun a b => a.email ≠ b.email)) (hne : tok1 ≠ tok2) :
    (Sync.storeResetToken now e2 tok l).Pairwise (fun a b => a.email ≠ b.email)
  ∧ ((Sync.validateResetToken now e2 tok l).ledger).Pairwise
      (fun a b => a.email ≠ b.email)
  ∧ ((Sync.markTokenAsUsed e2 tok l).ledger).Pairwise (fun a b => a.email ≠ b.email)
  ∧ ((Sync.cleanupExpiredTokens now l).ledger).Pairwise (fun a b => a.email ≠ b.email)
  ∧ (Sync.validateResetToken nowVal e tok1
      (Sync.storeResetToken nowStore e tok2 l)).ok = false := by
  refine ⟨?_, ?_, ?_, ?_, ?_⟩
  · unfold Sync.storeResetToken
    rw [List.pairwise_append]
    refine ⟨hd.filter _, List.pairwise_singleton _ _, ?_⟩
    intro a ha b hb
    have hane := (List.mem_filter.mp ha).2
    rcases List.mem_singleton.mp hb with rfl
    simpa using hane
  · rw [validate_ledger_eq]
    exact hd.filter _
  · rw [markUsed_ledger]
    refine List.pairwise_map.mp ?_
    rw [markUsedRec_emails]
    exact List.pairwise_map.mpr hd
  · rw [cleanup_eq]
    exact hd.filter _
  · cases hv : (Sync.validateResetToken nowVal e tok1
        (Sync.storeResetToken nowStore e tok2 l)).ok
    · rfl
    · exfalso
      obtain ⟨t, htm, h1, h2, h3, h4⟩ :=
        (validate_ok_iff nowVal e tok1 (Sync.storeResetToken nowStore e tok2 l)).mp hv
      unfold Sync.storeResetToken at htm
      rcases List.mem_append.mp htm with hmf | hms
      · exact absurd h1 (by simpa using (List.mem_filter.mp hmf).2)
      · rcases List.mem_singleton.mp hms with rfl
        exact hne h2.symm

/-- Witness for C5: issuance into the empty ledger keeps emails unique,
and the first token fails validation after a second issuance. -/
theorem claim5_supersession_witness :
    (Sync.storeResetToken 0 "a@b.com" "t1" []).Pairwise (fun a b => a.email ≠ b.email)
  ∧ (Sync.validateResetToken 10 "a@b.com" "t1"
      (Sync.storeResetToken 5 "a@b.com" "t2" [])).ok = false := by
  have h := claim5_supersession 0 5 10 "a@b.com" "a@b.com" "t1" "t1" "t2" []
    List.Pairwise.nil (by decide)
  exact ⟨h.1, h.2.2.2.2⟩

/-- Claim C1: a first PerformReset presenting the correct, unexpired,
unused envelope with a valid password succeeds and marks the ledger
record used; any subsequent PerformReset presenting the same envelope
(with a well-formed password, at any time) gets the generic 400. -/
theorem claim1_single_use
    (now now2 : Nat) (st : AppState) (jt : SignedJWT) (pw pw2 : String)
    (bhash bhash2 : String → String) (rec : ResetToken)
    (hsig : jt.sig = JWT_SECRET) (htyp : jt.typ = "password-reset")
    (hjexp : now < jt.exp)
    (hpw : 6 ≤ pw.length) (hpw2 : 6 ≤ pw2.length)
    (hmem : rec ∈ st.ledger) (hre : rec.email = jt.email)
    (hrt : rec.token = jt.resetToken)
    (hru : rec.used = false) (hrx : now < rec.expiresAt)
    (hdist : st.ledger.Pairwise (fun a b => a.email ≠ b.email))
    (huser : ∃ u ∈ st.users, lowerStr u.email = lowerStr jt.email) :
    (performReset now (some jt) (some pw) bhash st).1 =
      { status := 200, message := "Password has been reset successfully" }
  ∧ (∃ t ∈ (performReset now (some jt) (some pw) bhash st).2.ledger,
      t.email = jt.email ∧ t.token = jt.resetToken ∧ t.used = true)
  ∧ (performReset now2 (some jt) (some pw2) bhash2
      (performReset now (some jt) (some pw) bhash st).2).1 =
      { status := 400, message := "Invalid or expired reset token" } := by
  have hlt : ¬ (pw.length < 6) := by omega
  have hlt2 : ¬ (pw2.length < 6) := by omega
  have hver : verifyResetJWT now jt = some (jt.email, jt.resetToken) := by
    simp [verifyResetJWT, hsig, htyp, hjexp]
  have hok : (Sync.validateResetToken now jt.email jt.resetToken st.ledger).ok
      = true :=
    (validate_ok_iff now jt.email jt.resetToken st.ledger).mpr
      ⟨rec, hmem, hre, hrt, hru, hrx⟩
  obtain ⟨u, hu, hue⟩ := huser
  cases hfi : st.users.findIdx? (fun x => lowerStr x.email == lowerStr jt.email) with
  | none =>
    exfalso
    have := List.findIdx?_eq_none_iff.mp hfi u hu
    simp [hue] at this
  | some i =>
    have hfirst : performReset now (some jt) (some pw) bhash st =
        ({ status := 200, message := "Password has been reset successfully" },
         { users := st.users.modify (fun x => { x with password := bhash pw }) i,
           ledger := (Sync.markTokenAsUsed jt.email jt.resetToken
             (st.ledger.filter
               (fun t => decide (now < t.expiresAt) && !t.used))).ledger }) := by
      simp [performReset, hver, hlt, hok, hfi, validate_ledger_eq]
    have hrecL : rec ∈ st.ledger.filter
        (fun t => decide (now < t.expiresAt) && !t.used) :=
      List.mem_filter.mpr ⟨hmem, by simp [hru, hrx]⟩
    have hexm := markUsedRec_exists jt.email jt.resetToken
      (st.ledger.filter (fun t => decide (now < t.expiresAt) && !t.used))
      ⟨rec, hrecL, hre, hrt⟩
    have hall := markUsedRec_all_used jt.email jt.resetToken
      (st.ledger.filter (fun t => decide (now < t.expiresAt) && !t.used))
      (hdist.filter _)
    refine ⟨?_, ?_, ?_⟩
    · rw [hfirst]
    · rw [hfirst]
      simpa [markUsed_ledger] using hexm.1
    · rw [hfirst]
      cases hver2 : verifyResetJWT now2 jt with
      | none => simp [performReset, hver2, hlt2]
      | some pr =>
        have hpr : pr = (jt.email, jt.resetToken) := by
          unfold verifyResetJWT at hver2
          split at hver2
          · split at hver2
            · exact absurd hver2 (by simp)
            · exact (Option.some.inj hver2).symm
          · exact absurd hver2 (by simp)
        subst hpr
        have hok2 : (Sync.validateResetToken now2 jt.email jt.resetToken
            (Sync.markTokenAsUsed jt.email jt.resetToken
              (st.ledger.filter
                (fun t => decide (now < t.expiresAt) && !t.used))).ledger).ok
            = false := by
          cases hv2 : (Sync.validateResetToken now2 jt.email jt.resetToken
              (Sync.markTokenAsUsed jt.email jt.resetToken
                (st.ledger.filter
                  (fun t => decide (now < t.expiresAt) && !t.used))).ledger).ok
          · rfl
          · exfalso
            obtain ⟨t, htm, h1, h2, h3, h4⟩ := (validate_ok_iff _ _ _ _).mp hv2
            rw [markUsed_ledger] at htm
            have hused := hall t htm h1 h2
            rw [hused] at h3
            cases h3
        simp [performReset, hver2, hlt2, hok2]

/-- Witness for C1: the scenario of the spec — a valid envelope for
`test@example.com` succeeds once, then the same envelope gets 400. -/
theorem claim1_single_use_witness :
    (performReset 0
        (some ⟨"test@example.com", "t1", "password-reset", 100, JWT_SECRET⟩)
        (some "newPassword123") id
        { users := [⟨"1", "Test User", "test@example.com", "old"⟩],
          ledger := [⟨"test@example.com", "t1", 50, false⟩] }).1 =
      { status := 200, message := "Password has been reset successfully" }
  ∧ (performReset 0
        (some ⟨"test@example.com", "t1", "password-reset", 100, JWT_SECRET⟩)
        (some "newPassword123") id
        (performReset 0
          (some ⟨"test@example.com", "t1", "password-reset", 100, JWT_SECRET⟩)
          (some "newPassword123") id
          { users := [⟨"1", "Test User", "test@example.com", "old"⟩],
            ledger := [⟨"test@example.com", "t1", 50, false⟩] }).2).1 =
      { status := 400, message := "Invalid or expired reset token" } := by
  have h := claim1_single_use 0 0
    { users := [⟨"1", "Test User", "test@example.com", "old"⟩],
      ledger := [⟨"test@example.com", "t1", 50, false⟩] }
    ⟨"test@example.com", "t1", "password-reset", 100, JWT_SECRET⟩
    "newPassword123" "newPassword123" id id
    ⟨"test@example.com", "t1", 50, false⟩
    rfl rfl (by decide) (by decide) (by decide) (by decide) rfl rfl rfl
    (by decide) (by simp)
    ⟨⟨"1", "Test User", "test@example.com", "old"⟩, by decide, rfl⟩
  exact ⟨h.1, h.2.2⟩
